import Mathlib

/-
Verification of the regrippy hive-path resolution engine and dispatch loop
(`regrip.py`) against its specification.

The filesystem is modelled as a finite tree (`FS`); `os.listdir` raises an
`OSError` on a missing path or on a file, which we model with `Except Err`.
Python strings are modelled as `String`, filesystem paths as lists of path
segments (`Path`); the empty list plays the role of the empty (falsy) string.
`str.lower` is modelled by `pyLower` (the hive names and file names involved
are ASCII).  Exceptions (`sys.exit(3)`, `RuntimeError`, uncaught `OSError`)
are the `Err` variants; they propagate exactly where Python would propagate
them, including through the eager evaluation of the arguments of `first`.
-/

namespace Regrip

/-- A path is a list of path segments; `[]` models the empty string. -/
abbrev Path := List String

/-- The exceptional outcomes of the program: an uncaught OS error from
`os.listdir`, a `sys.exit` with an exit code, and an uncaught Python
`RuntimeError`. -/
inductive Err where
  | osError : Err
  | exit : Nat → Err
  | runtimeError : String → Err
deriving DecidableEq

/-- A filesystem node: a plain file or a directory with a named entry list
(in directory-listing order). -/
inductive FS where
  | file : FS
  | dir : List (String × FS) → FS

/-- Exact-name entry lookup inside one directory's entry list. -/
def findEntry : List (String × FS) → String → Option FS
  | [], _ => none
  | (n, node) :: rest, p => if n = p then some node else findEntry rest p

/-- Walk a segment path down the tree; `none` models a non-existent path. -/
def lookupFS : List String → FS → Option FS
  | [], n => some n
  | _ :: _, FS.file => none
  | p :: ps, FS.dir es =>
    match findEntry es p with
    | some node => lookupFS ps node
    | none => none

/-- Model of `os.listdir`: the entry names of a directory, in order; raises
(`Err.osError`) when the path does not exist or is a file. -/
def listdir (fs : FS) (p : Path) : Except Err (List String) :=
  match lookupFS p fs with
  | some (FS.dir es) => .ok (es.map Prod.fst)
  | some FS.file => .error .osError
  | none => .error .osError

/-- Model of `os.path.isdir` (never raises). -/
def isdir (fs : FS) (p : Path) : Bool :=
  match lookupFS p fs with
  | some (FS.dir _) => true
  | _ => false

/-- Model of Python `str.lower` for the ASCII names the program handles. -/
def pyLower (s : String) : String := String.mk (s.data.map Char.toLower)

/-- `find_file_nocase(root, file_name)`: scan the directory's entries and
return the first whose lowercase form equals the lowercased desired name,
else `None`.  A `listdir` failure propagates, as in the source. -/
def find_file_nocase (fs : FS) (root : Path) (file_name : String) :
    Except Err (Option String) :=
  match listdir fs root with
  | .error e => .error e
  | .ok files => .ok (files.find? (fun f => pyLower f == pyLower file_name))

/-- The loop of `find_path_nocase`, with `acc` playing `full_path_parts`. -/
def find_path_nocase_go (fs : FS) (root_path : Path) (acc : List String) :
    List String → Except Err (Option Path)
  | [] => .ok (some (root_path ++ acc))
  | part :: rest =>
    match find_file_nocase fs (root_path ++ acc) part with
    | .error e => .error e
    | .ok none => .ok none
    | .ok (some actual) => find_path_nocase_go fs root_path (acc ++ [actual]) rest

/-- `find_path_nocase(root_path, rest_list)`: resolve each segment in turn,
case-insensitively, against the directory built from the previously resolved
segments; `None` as soon as a segment has no match. -/
def find_path_nocase (fs : FS) (root_path : Path) (rest_list : List String) :
    Except Err (Option Path) :=
  find_path_nocase_go fs root_path [] rest_list

/-- Python truthiness of a `str`-or-`None` value: `None` and the empty
string are falsy. -/
def truthy : Option Path → Bool
  | none => false
  | some p => !p.isEmpty

/-- `first(*args)`: the first truthy argument, else `None`. -/
def first : List (Option Path) → Option Path
  | [] => none
  | a :: rest => if truthy a then a else first rest

/-- `return [path] if path else None`. -/
def wrap (o : Option Path) : Option (List Path)  :=
  match o with
  | some p => if p.isEmpty then none else some [p]
  | none => none

/-- The parsed command-line arguments the resolution engine consults.
Argparse string defaults are the empty string, i.e. `[]`. -/
structure Args where
  system : Path
  software : Path
  sam : Path
  ntuser : Path
  usrclass : Path
  root : Path
  all_user_hives : Bool

/-- The environment variables consulted as a last resort; `none` models an
unset variable. -/
structure Env where
  reg_system : Option Path
  reg_software : Option Path
  reg_sam : Option Path
  reg_ntuser : Option Path
  reg_usrclass : Option Path

/-- The root-derived candidate `find_path_nocase(args.root, ["windows",
"system32", "config", name]) if args.root else None`, evaluated eagerly as
an argument of `first` (so an OS error escapes even when an override is
set). -/
def rootLookup (fs : FS) (args : Args) (name : String) : Except Err (Option Path) :=
  if args.root.isEmpty then .ok none
  else find_path_nocase fs args.root ["windows", "system32", "config", name]

/-- The per-user loop of the "all user hives" branch: for each entry of the
profiles directory that is a directory, resolve the per-hive path and append
it when found.  `lower_name` is the already-lowercased hive name. -/
def userHiveLoop (fs : FS) (lower_name : String) (users_folder : Path) :
    List String → Except Err (List Path)
  | [] => .ok []
  | u :: rest =>
    if isdir fs (users_folder ++ [u]) then
      match (if lower_name = "ntuser.dat" then
               find_path_nocase fs (users_folder ++ [u]) ["ntuser.dat"]
             else
               find_path_nocase fs users_folder
                 ["appdata", "local", "microsoft", "windows", "usrclass.dat"]) with
      | .error e => .error e
      | .ok (some p) =>
        match userHiveLoop fs lower_name users_folder rest with
        | .error e => .error e
        | .ok l => .ok (p :: l)
      | .ok none => userHiveLoop fs lower_name users_folder rest
    else userHiveLoop fs lower_name users_folder rest

/-- List the profiles directory and run the per-user loop over its entries. -/
def expandUsers (fs : FS) (lower_name : String) (users_folder : Path) :
    Except Err (List Path) :=
  match listdir fs users_folder with
  | .error e => .error e
  | .ok entries => userHiveLoop fs lower_name users_folder entries

/-- `get_hive_paths(args, hive_name)`.  The `fuel` argument is only a
structural-recursion device for the `"all"` branch (which recurses once into
the five concrete hive names, never into `"all"` again); the entry point
`get_hive_paths` supplies fuel 2, which makes the fuel-0 fallback
unreachable. -/
def get_hive_paths_rec (fs : FS) (env : Env) (args : Args) :
    Nat → String → Except Err (Option (List Path))
  | 0, _ => .ok none
  | fuel + 1, hive_name =>
    if (pyLower hive_name = "all" ∨ pyLower hive_name = "ntuser.dat" ∨
        pyLower hive_name = "usrclass.dat") ∧
        args.all_user_hives = true ∧ args.root = [] then
      .error (.exit 3)
    else if pyLower hive_name = "system" then
      match rootLookup fs args "system" with
      | .error e => .error e
      | .ok d => .ok (wrap (first [some args.system, d, env.reg_system]))
    else if pyLower hive_name = "software" then
      match rootLookup fs args "software" with
      | .error e => .error e
      | .ok d => .ok (wrap (first [some args.software, d, env.reg_software]))
    else if pyLower hive_name = "sam" then
      match rootLookup fs args "sam" with
      | .error e => .error e
      | .ok d => .ok (wrap (first [some args.sam, d, env.reg_sam]))
    else if pyLower hive_name = "ntuser.dat" ∧ args.all_user_hives = false then
      .ok (wrap (first [some args.ntuser, env.reg_ntuser]))
    else if pyLower hive_name = "usrclass.dat" ∧ args.all_user_hives = false then
      .ok (wrap (first [some args.usrclass, env.reg_usrclass]))
    else if (pyLower hive_name = "ntuser.dat" ∨ pyLower hive_name = "usrclass.dat") ∧
        args.all_user_hives = true then
      match find_path_nocase fs args.root ["users"] with
      | .error e => .error e
      | .ok (some uf) =>
        match expandUsers fs (pyLower hive_name) uf with
        | .error e => .error e
        | .ok l => .ok (some l)
      | .ok none =>
        match find_path_nocase fs args.root ["Documents And Settings"] with
        | .error e => .error e
        | .ok (some uf) =>
          match expandUsers fs (pyLower hive_name) uf with
          | .error e => .error e
          | .ok l => .ok (some l)
        | .ok none => .error (.runtimeError "Could not find the Users folder")
    else if pyLower hive_name = "all" then
      match get_hive_paths_rec fs env args fuel "system" with
      | .error e => .error e
      | .ok r1 =>
        match get_hive_paths_rec fs env args fuel "software" with
        | .error e => .error e
        | .ok r2 =>
          match get_hive_paths_rec fs env args fuel "sam" with
          | .error e => .error e
          | .ok r3 =>
            match get_hive_paths_rec fs env args fuel "ntuser.dat" with
            | .error e => .error e
            | .ok r4 =>
              match get_hive_paths_rec fs env args fuel "usrclass.dat" with
              | .error e => .error e
              | .ok r5 =>
                .ok (some (r1.getD [] ++ r2.getD [] ++ r3.getD [] ++
                           r4.getD [] ++ r5.getD []))
    else
      .ok none

/-- The resolution entry point, `get_hive_paths`. -/
def get_hive_paths (fs : FS) (env : Env) (args : Args) (hive_name : String) :
    Except Err (Option (List Path)) :=
  get_hive_paths_rec fs env args 2 hive_name

/-- Python truthiness of the value returned by `get_hive_paths` at its call
site (`if not hive_paths`): `None` and the empty list are falsy. -/
def pathsTruthy : Option (List Path) → Bool
  | none => false
  | some l => !l.isEmpty

/-- The observable events of one invocation of `main`'s dispatch loop. -/
inductive Event where
  | diagMissing : String → Event
  | openStdin : Event
  | openFile : Path → Event
  | userInfo : String → Path → Event
  | display : Nat → Event
deriving DecidableEq

/-- Processing of one resolved `hive_path` inside the inner loop of `main`:
open the hive (stdin for the `"-"` sentinel), run the plugin, and when the
result list is non-empty, emit the `User:` info line exactly when the path is
not `"-"` and the declared hive name is the exact string `"NTUSER.DAT"`, then
display each result.  `run` abstracts `plugin(reg, ...).run()`, keyed by the
declared hive name and the resolved path. -/
def processPath (run : String → Path → List Nat) (hive_name : String) (p : Path) :
    List Event :=
  (if p = ["-"] then [Event.openStdin] else [Event.openFile p]) ++
  (if (run hive_name p).isEmpty then []
   else
     (if ¬p = ["-"] ∧ hive_name = "NTUSER.DAT" then [Event.userInfo hive_name p]
      else []) ++
     (run hive_name p).map Event.display)

/-- Processing of one declared hive name in the outer loop of `main`:
resolve it, emit the `Hive not found` diagnostic and move on when the result
is falsy, else process every resolved path in order.  Exceptions from
resolution propagate. -/
def processHive (run : String → Path → List Nat) (fs : FS) (env : Env)
    (args : Args) (hive_name : String) : Except Err (List Event) :=
  match get_hive_paths fs env args hive_name with
  | .error e => .error e
  | .ok hp =>
    if pathsTruthy hp then
      .ok (((hp.getD []).map (processPath run hive_name)).flatten)
    else
      .ok [Event.diagMissing hive_name]

/-- The outer loop of `main` over the plugin's declared hive names. -/
def mainLoop (run : String → Path → List Nat) (fs : FS) (env : Env)
    (args : Args) : List String → Except Err (List Event)
  | [] => .ok []
  | h :: rest =>
    match processHive run fs env args h with
    | .error e => .error e
    | .ok e1 =>
      match mainLoop run fs env args rest with
      | .error e => .error e
      | .ok e2 => .ok (e1 ++ e2)

/-- Number of `"-"` sentinels among the truthy resolved path lists of the
declared hive names (the error branch is unreachable whenever the main loop
completes normally). -/
def dashCount (fs : FS) (env : Env) (args : Args) : List String → Nat
  | [] => 0
  | h :: rest =>
    (match get_hive_paths fs env args h with
     | .ok hp => if pathsTruthy hp then (hp.getD []).count ["-"] else 0
     | .error _ => 0) + dashCount fs env args rest

/-! ### Concrete fixtures -/

/-- An environment with every `REG_*` variable unset. -/
def env0 : Env := ⟨none, none, none, none, none⟩

/-- Arguments with every flag and path at its default. -/
def args0 : Args := ⟨[], [], [], [], [], [], false⟩

/-- A plugin whose `run` produces no results. -/
def run0 : String → Path → List Nat := fun _ _ => []

/-- A plugin whose `run` produces one result for every opened hive. -/
def run1 : String → Path → List Nat := fun _ _ => [0]

/-- An empty filesystem: the root directory has no entries. -/
def fs0 : FS := FS.dir []

/-- A mounted image for the `ALL` scenario: `c` holds
`windows/system32/config/{system,software,sam}` and `users` with two profile
directories, each containing an `ntuser.dat`. -/
def fsAll : FS := FS.dir [("c", FS.dir [
  ("windows", FS.dir [("system32", FS.dir [("config", FS.dir
    [("system", FS.file), ("software", FS.file), ("sam", FS.file)])])]),
  ("users", FS.dir [
    ("alice", FS.dir [("ntuser.dat", FS.file)]),
    ("bob", FS.dir [("ntuser.dat", FS.file)])])])]

/-- Arguments pointing `--root` at `c` with `--all-user-hives` set. -/
def argsAll : Args := ⟨[], [], [], [], [], ["c"], true⟩

/-- A filesystem in which the directory named by `--root` does not exist. -/
def fsC1 : FS := FS.dir []

/-- An explicit `--system` override together with a dangling `--root`. -/
def argsC1 : Args := ⟨["override"], [], [], [], [], ["c"], false⟩

/-- A filesystem where the entry `c/windows` is a file, so it cannot be
listed when it turns up as an intermediate directory. -/
def fsC5 : FS := FS.dir [("c", FS.dir [("windows", FS.file)])]

/-- A single-entry directory holding `SOFTWARE` in on-disk upper case. -/
def fsSoft : FS := FS.dir [("SOFTWARE", FS.file)]

/-- Arguments reading both per-user hives from standard input. -/
def argsC6 : Args := ⟨[], [], [], ["-"], ["-"], [], false⟩

/-- Arguments for the missed-guard scenario: `--all-user-hives` without
`--root`, but with an explicit `--system` override. -/
def argsC3 : Args := ⟨["p"], [], [], [], [], [], true⟩

/-- A profiles directory containing two user directories, a stray file, and
an `AppData` tree directly under the profiles directory itself (the location
the USRCLASS.DAT branch actually probes). -/
def fsC4 : FS := FS.dir [("c", FS.dir [("Users", FS.dir [
  ("alice", FS.dir []),
  ("desktop.ini", FS.file),
  ("bob", FS.dir []),
  ("AppData", FS.dir [("Local", FS.dir [("Microsoft", FS.dir
    [("Windows", FS.dir [("UsrClass.dat", FS.file)])])])])])])]

/-- A root with neither a `Users` nor a `Documents and Settings` directory. -/
def fsC8 : FS := FS.dir [("c", FS.dir [("tmp", FS.dir [])])]

/-- Arguments with `--all-user-hives` set and no `--root`. -/
def argsW3 : Args := ⟨[], [], [], [], [], [], true⟩

/-- Arguments overriding all five hives explicitly. -/
def argsW2 : Args := ⟨["s1"], ["s2"], ["s3"], ["s4"], ["s5"], [], false⟩

/-- Arguments with only an explicit `--system` override. -/
def argsW1 : Args := ⟨["ov"], [], [], [], [], [], false⟩

/-- An environment with `REG_SYSTEM` set. -/
def envW1 : Env := ⟨some ["envpath"], none, none, none, none⟩

/-! ### Helper lemmas -/

theorem pyLower_NT : pyLower "NTUSER.DAT" = "ntuser.dat" := rfl

/-- For a hive name other than `"all"`, the fuel of `get_hive_paths_rec` is
irrelevant (only the `"all"` branch recurses). -/
theorem rec_fuel_succ (fs : FS) (env : Env) (args : Args) (f1 f2 : Nat)
    (name : String) (h : pyLower name ≠ "all") :
    get_hive_paths_rec fs env args (f1 + 1) name =
      get_hive_paths_rec fs env args (f2 + 1) name := by
  rw [get_hive_paths_rec.eq_2, get_hive_paths_rec.eq_2]
  split_ifs with g1 g2 g3 g4 g5 g6 g7 <;> rfl

/-- `get_hive_paths` computes with fuel 1 for any non-`"all"` hive name. -/
theorem ghp_rec1 (fs : FS) (env : Env) (args : Args) (name : String)
    (h : pyLower name ≠ "all") :
    get_hive_paths fs env args name = get_hive_paths_rec fs env args 1 name := by
  show get_hive_paths_rec fs env args 2 name = _
  rw [show (2 : Nat) = 1 + 1 from rfl]
  conv_rhs => rw [show (1 : Nat) = 0 + 1 from rfl]
  exact rec_fuel_succ fs env args 1 0 name h

/-- The SYSTEM branch of `get_hive_paths`, when the eager root-derived
lookup completes. -/
theorem ghp_system (fs : FS) (env : Env) (args : Args) (name : String)
    (d : Option Path) (h : pyLower name = "system")
    (hd : rootLookup fs args "system" = .ok d) :
    get_hive_paths fs env args name =
      .ok (wrap (first [some args.system, d, env.reg_system])) := by
  show get_hive_paths_rec fs env args 2 name = _
  rw [show (2 : Nat) = 1 + 1 from rfl, get_hive_paths_rec.eq_2, h]
  rw [if_neg (by simp), if_pos rfl, hd]

/-- The SOFTWARE branch of `get_hive_paths`. -/
theorem ghp_software (fs : FS) (env : Env) (args : Args) (name : String)
    (d : Option Path) (h : pyLower name = "software")
    (hd : rootLookup fs args "software" = .ok d) :
    get_hive_paths fs env args name =
      .ok (wrap (first [some args.software, d, env.reg_software])) := by
  show get_hive_paths_rec fs env args 2 name = _
  rw [show (2 : Nat) = 1 + 1 from rfl, get_hive_paths_rec.eq_2, h]
  rw [if_neg (by simp), if_neg (by simp), if_pos rfl, hd]

/-- The SAM branch of `get_hive_paths`. -/
theorem ghp_sam (fs : FS) (env : Env) (args : Args) (name : String)
    (d : Option Path) (h : pyLower name = "sam")
    (hd : rootLookup fs args "sam" = .ok d) :
    get_hive_paths fs env args name =
      .ok (wrap (first [some args.sam, d, env.reg_sam])) := by
  show get_hive_paths_rec fs env args 2 name = _
  rw [show (2 : Nat) = 1 + 1 from rfl, get_hive_paths_rec.eq_2, h]
  rw [if_neg (by simp), if_neg (by simp), if_neg (by simp), if_pos rfl, hd]

/-- The NTUSER.DAT branch with `--all-user-hives` disabled: no filesystem
access, no root-derived default. -/
theorem ghp_ntuser_plain (fs : FS) (env : Env) (args : Args) (name : String)
    (h : pyLower name = "ntuser.dat") (hflag : args.all_user_hives = false) :
    get_hive_paths fs env args name =
      .ok (wrap (first [some args.ntuser, env.reg_ntuser])) := by
  show get_hive_paths_rec fs env args 2 name = _
  rw [show (2 : Nat) = 1 + 1 from rfl, get_hive_paths_rec.eq_2, h]
  rw [if_neg (by simp [hflag]), if_neg (by simp), if_neg (by simp),
      if_neg (by simp), if_pos ⟨rfl, hflag⟩]

/-- The USRCLASS.DAT branch with `--all-user-hives` disabled. -/
theorem ghp_usrclass_plain (fs : FS) (env : Env) (args : Args) (name : String)
    (h : pyLower name = "usrclass.dat") (hflag : args.all_user_hives = false) :
    get_hive_paths fs env args name =
      .ok (wrap (first [some args.usrclass, env.reg_usrclass])) := by
  show get_hive_paths_rec fs env args 2 name = _
  rw [show (2 : Nat) = 1 + 1 from rfl, get_hive_paths_rec.eq_2, h]
  rw [if_neg (by simp [hflag]), if_neg (by simp), if_neg (by simp),
      if_neg (by simp), if_neg (by simp), if_pos ⟨rfl, hflag⟩]

/-- The guard of `get_hive_paths`: `--all-user-hives` without `--root`
exits with code 3 for the three hive names it covers. -/
theorem ghp_guard (fs : FS) (env : Env) (args : Args) (name : String)
    (h : pyLower name = "all" ∨ pyLower name = "ntuser.dat" ∨
         pyLower name = "usrclass.dat")
    (hflag : args.all_user_hives = true) (hroot : args.root = []) :
    get_hive_paths fs env args name = .error (Err.exit 3) := by
  show get_hive_paths_rec fs env args 2 name = _
  rw [show (2 : Nat) = 1 + 1 from rfl, get_hive_paths_rec.eq_2]
  rw [if_pos ⟨h, hflag, hroot⟩]

/-- The expand branch of `get_hive_paths`, for NTUSER.DAT / USRCLASS.DAT
with `--all-user-hives` enabled and a root given. -/
theorem ghp_expand (fs : FS) (env : Env) (args : Args) (name : String)
    (h : pyLower name = "ntuser.dat" ∨ pyLower name = "usrclass.dat")
    (hflag : args.all_user_hives = true) (hroot : args.root ≠ []) :
    get_hive_paths fs env args name =
      match find_path_nocase fs args.root ["users"] with
      | .error e => .error e
      | .ok (some uf) =>
        (match expandUsers fs (pyLower name) uf with
         | .error e => .error e
         | .ok l => .ok (some l))
      | .ok none =>
        match find_path_nocase fs args.root ["Documents And Settings"] with
        | .error e => .error e
        | .ok (some uf) =>
          (match expandUsers fs (pyLower name) uf with
           | .error e => .error e
           | .ok l => .ok (some l))
        | .ok none => .error (.runtimeError "Could not find the Users folder") := by
  show get_hive_paths_rec fs env args 2 name = _
  rw [show (2 : Nat) = 1 + 1 from rfl, get_hive_paths_rec.eq_2]
  rcases h with h | h <;>
    rw [h, if_neg (by simp [hroot]), if_neg (by simp), if_neg (by simp),
        if_neg (by simp), if_neg (by simp [hflag]), if_neg (by simp [hflag]),
        if_pos ⟨by simp, hflag⟩]

/-- The `"all"` branch concatenates the five per-hive results in order. -/
theorem ghp_all (fs : FS) (env : Env) (args : Args) (name : String)
    (r1 r2 r3 r4 r5 : Option (List Path)) (h : pyLower name = "all")
    (hg : ¬(args.all_user_hives = true ∧ args.root = []))
    (h1 : get_hive_paths fs env args "system" = .ok r1)
    (h2 : get_hive_paths fs env args "software" = .ok r2)
    (h3 : get_hive_paths fs env args "sam" = .ok r3)
    (h4 : get_hive_paths fs env args "ntuser.dat" = .ok r4)
    (h5 : get_hive_paths fs env args "usrclass.dat" = .ok r5) :
    get_hive_paths fs env args name =
      .ok (some (r1.getD [] ++ r2.getD [] ++ r3.getD [] ++
                 r4.getD [] ++ r5.getD [])) := by
  have e1 : get_hive_paths_rec fs env args 1 "system" = .ok r1 :=
    (ghp_rec1 fs env args "system" (by decide)).symm.trans h1
  have e2 : get_hive_paths_rec fs env args 1 "software" = .ok r2 :=
    (ghp_rec1 fs env args "software" (by decide)).symm.trans h2
  have e3 : get_hive_paths_rec fs env args 1 "sam" = .ok r3 :=
    (ghp_rec1 fs env args "sam" (by decide)).symm.trans h3
  have e4 : get_hive_paths_rec fs env args 1 "ntuser.dat" = .ok r4 :=
    (ghp_rec1 fs env args "ntuser.dat" (by decide)).symm.trans h4
  have e5 : get_hive_paths_rec fs env args 1 "usrclass.dat" = .ok r5 :=
    (ghp_rec1 fs env args "usrclass.dat" (by decide)).symm.trans h5
  show get_hive_paths_rec fs env args 2 name = _
  rw [show (2 : Nat) = 1 + 1 from rfl, get_hive_paths_rec.eq_2, h]
  rw [if_neg (by simp [hg]), if_neg (by simp), if_neg (by simp),
      if_neg (by simp), if_neg (by simp), if_neg (by simp),
      if_neg (by simp), if_pos rfl]
  rw [e1, e2, e3, e4, e5]

/-! ### Claims -/

/-- C1 (counterexample): the explicit `--system` override is set and
non-empty, yet resolution does not use it — with a dangling `--root` the
eagerly evaluated root-derived lookup raises an OS error that escapes, so
no source at all is used. -/
theorem C1_counterexample :
    argsC1.system = ["override"] ∧
    get_hive_paths fsC1 env0 argsC1 "SYSTEM" = .error Err.osError :=
  ⟨rfl, rfl⟩

/-- C1 (amended): whenever the root-derived lookup completes (root absent,
or the case-insensitive walk finishes without raising), exactly one source
wins per hive kind in strict priority order — the first truthy argument of
`first` is used regardless of the later ones; SYSTEM/SOFTWARE/SAM consult
override, root-derived path, then environment variable, and NTUSER.DAT /
USRCLASS.DAT with expand-all disabled consult only override then environment
variable (their result does not depend on the filesystem or the root at
all).  If the root lookup raises, the error propagates even when the
override is set. -/
theorem C1_priority :
    (∀ (a : Option Path) (rest : List (Option Path)),
        (truthy a = true → first (a :: rest) = a) ∧
        (truthy a = false → first (a :: rest) = first rest)) ∧
    (∀ (fs : FS) (env : Env) (args : Args) (name : String) (d : Option Path),
        pyLower name = "system" → rootLookup fs args "system" = .ok d →
        get_hive_paths fs env args name =
          .ok (wrap (first [some args.system, d, env.reg_system]))) ∧
    (∀ (fs : FS) (env : Env) (args : Args) (name : String) (d : Option Path),
        pyLower name = "software" → rootLookup fs args "software" = .ok d →
        get_hive_paths fs env args name =
          .ok (wrap (first [some args.software, d, env.reg_software]))) ∧
    (∀ (fs : FS) (env : Env) (args : Args) (name : String) (d : Option Path),
        pyLower name = "sam" → rootLookup fs args "sam" = .ok d →
        get_hive_paths fs env args name =
          .ok (wrap (first [some args.sam, d, env.reg_sam]))) ∧
    (∀ (fs : FS) (env : Env) (args : Args) (name : String),
        pyLower name = "ntuser.dat" → args.all_user_hives = false →
        get_hive_paths fs env args name =
          .ok (wrap (first [some args.ntuser, env.reg_ntuser]))) ∧
    (∀ (fs : FS) (env : Env) (args : Args) (name : String),
        pyLower name = "usrclass.dat" → args.all_user_hives = false →
        get_hive_paths fs env args name =
          .ok (wrap (first [some args.usrclass, env.reg_usrclass]))) := by
  refine ⟨?_, ghp_system, ghp_software, ghp_sam, ghp_ntuser_plain,
    ghp_usrclass_plain⟩
  intro a rest
  constructor <;> intro ht <;> simp [first, ht]

/-- C1 (witness): with both the override and the environment variable set,
the override wins. -/
theorem C1_priority_witness :
    get_hive_paths fs0 envW1 argsW1 "SYSTEM" = .ok (some [["ov"]]) :=
  C1_priority.2.1 fs0 envW1 argsW1 "SYSTEM" none rfl rfl

/-- C2: the `"all"` meta-hive concatenates the results of SYSTEM, SOFTWARE,
SAM, NTUSER.DAT, USRCLASS.DAT in that fixed order, skipping falsy results;
and on a root with `windows/system32/config/{system,software,sam}` plus a
`users` directory with two profile subdirectories each holding an
`ntuser.dat`, it yields exactly those 5 paths in order. -/
theorem C2_all_order :
    (∀ (fs : FS) (env : Env) (args : Args) (r1 r2 r3 r4 r5 : Option (List Path)),
        ¬(args.all_user_hives = true ∧ args.root = []) →
        get_hive_paths fs env args "system" = .ok r1 →
        get_hive_paths fs env args "software" = .ok r2 →
        get_hive_paths fs env args "sam" = .ok r3 →
        get_hive_paths fs env args "ntuser.dat" = .ok r4 →
        get_hive_paths fs env args "usrclass.dat" = .ok r5 →
        get_hive_paths fs env args "all" =
          .ok (some (r1.getD [] ++ r2.getD [] ++ r3.getD [] ++
                     r4.getD [] ++ r5.getD []))) ∧
    get_hive_paths fsAll env0 argsAll "all" =
      .ok (some [["c", "windows", "system32", "config", "system"],
                 ["c", "windows", "system32", "config", "software"],
                 ["c", "windows", "system32", "config", "sam"],
                 ["c", "users", "alice", "ntuser.dat"],
                 ["c", "users", "bob", "ntuser.dat"]]) :=
  ⟨fun fs env args r1 r2 r3 r4 r5 hg =>
      ghp_all fs env args "all" r1 r2 r3 r4 r5 rfl hg, rfl⟩

/-- C2 (witness): with the five overrides set, `"all"` yields the five
override paths in the fixed order. -/
theorem C2_all_order_witness :
    get_hive_paths fs0 env0 argsW2 "all" =
      .ok (some [["s1"], ["s2"], ["s3"], ["s4"], ["s5"]]) :=
  C2_all_order.1 fs0 env0 argsW2 _ _ _ _ _ (by decide) rfl rfl rfl rfl rfl

/-- C3 (counterexample): with `--all-user-hives` set and no `--root`, a
plugin declaring only SYSTEM is processed normally — the run opens the
override path and never exits with code 3, contradicting "no hive processing
is attempted, for every plugin and every declared hive-name set". -/
theorem C3_counterexample :
    argsC3.all_user_hives = true ∧ argsC3.root = [] ∧
    mainLoop run0 fs0 env0 argsC3 ["SYSTEM"] = .ok [Event.openFile ["p"]] :=
  ⟨rfl, rfl, rfl⟩

/-- C3 (amended): with `--all-user-hives` set and no `--root`, resolving a
hive whose lowercased name is `all`, `ntuser.dat` or `usrclass.dat` exits
with the fatal configuration code 3, and the dispatch loop aborts at the
first such declared name (subsequent names unprocessed); hive names outside
this set are unaffected by the guard. -/
theorem C3_exit3 :
    ∀ (fs : FS) (env : Env) (args : Args) (name : String) (rest : List String)
      (run : String → Path → List Nat),
      args.all_user_hives = true → args.root = [] →
      (pyLower name = "all" ∨ pyLower name = "ntuser.dat" ∨
       pyLower name = "usrclass.dat") →
      get_hive_paths fs env args name = .error (Err.exit 3) ∧
      mainLoop run fs env args (name :: rest) = .error (Err.exit 3) := by
  intro fs env args name rest run hflag hroot hname
  have hg := ghp_guard fs env args name hname hflag hroot
  exact ⟨hg, by simp [mainLoop, processHive, hg]⟩

/-- C3 (witness): the guard fires for `NTUSER.DAT` with the flag set and no
root. -/
theorem C3_exit3_witness :
    get_hive_paths fs0 env0 argsW3 "NTUSER.DAT" = .error (Err.exit 3) ∧
    mainLoop run0 fs0 env0 argsW3 ["NTUSER.DAT"] = .error (Err.exit 3) :=
  C3_exit3 fs0 env0 argsW3 "NTUSER.DAT" [] run0 rfl rfl (Or.inr (Or.inl rfl))

/-- In the USRCLASS.DAT expand branch, every directory entry of the profiles
directory contributes the same profiles-relative path once. -/
theorem userLoop_usrclass (fs : FS) (uf : Path) (p : Path)
    (hp : find_path_nocase fs uf
      ["appdata", "local", "microsoft", "windows", "usrclass.dat"] = .ok (some p)) :
    ∀ entries : List String,
      userHiveLoop fs "usrclass.dat" uf entries =
        .ok (List.replicate
          (entries.filter (fun u => isdir fs (uf ++ [u]))).length p) := by
  intro entries
  induction entries with
  | nil => rfl
  | cons u rest ih =>
    by_cases hd : isdir fs (uf ++ [u])
    · simp [userHiveLoop, hd, hp, ih, List.filter_cons, List.replicate_succ]
    · simp [userHiveLoop, hd, ih, List.filter_cons]

/-- When the profiles-relative USRCLASS.DAT path is not found, the loop
appends nothing at all. -/
theorem userLoop_usrclass_none (fs : FS) (uf : Path)
    (hp : find_path_nocase fs uf
      ["appdata", "local", "microsoft", "windows", "usrclass.dat"] = .ok none) :
    ∀ entries : List String,
      userHiveLoop fs "usrclass.dat" uf entries = .ok [] := by
  intro entries
  induction entries with
  | nil => rfl
  | cons u rest ih =>
    by_cases hd : isdir fs (uf ++ [u])
    · simp [userHiveLoop, hd, hp, ih]
    · simp [userHiveLoop, hd, ih]

/-- C4: in expand-all mode for USRCLASS.DAT, the probed path is
`appdata/local/microsoft/windows/usrclass.dat` resolved case-insensitively
relative to the profiles directory itself, files among the profile entries
are skipped, and the same path is appended once per remaining subdirectory
(so the result is that one path replicated). -/
theorem C4_usrclass_profiles :
    (∀ (fs : FS) (uf : Path) (entries : List String) (p : Path),
        listdir fs uf = .ok entries →
        find_path_nocase fs uf
          ["appdata", "local", "microsoft", "windows", "usrclass.dat"] =
            .ok (some p) →
        expandUsers fs "usrclass.dat" uf =
          .ok (List.replicate
            (entries.filter (fun u => isdir fs (uf ++ [u]))).length p)) ∧
    (∀ (fs : FS) (uf : Path) (entries : List String),
        listdir fs uf = .ok entries →
        find_path_nocase fs uf
          ["appdata", "local", "microsoft", "windows", "usrclass.dat"] = .ok none →
        expandUsers fs "usrclass.dat" uf = .ok []) ∧
    (∀ (fs : FS) (env : Env) (args : Args) (name : String) (uf : Path),
        pyLower name = "usrclass.dat" → args.all_user_hives = true →
        args.root ≠ [] →
        find_path_nocase fs args.root ["users"] = .ok (some uf) →
        get_hive_paths fs env args name =
          Except.map some (expandUsers fs "usrclass.dat" uf)) := by
  refine ⟨?_, ?_, ?_⟩
  · intro fs uf entries p hl hp
    simp [expandUsers, hl, userLoop_usrclass fs uf p hp entries]
  · intro fs uf entries hl hp
    simp [expandUsers, hl, userLoop_usrclass_none fs uf hp entries]
  · intro fs env args name uf hn hflag hroot husers
    rw [ghp_expand fs env args name (Or.inr hn) hflag hroot, husers, hn]
    rcases hE : expandUsers fs "usrclass.dat" uf with e | l <;>
      simp [hE, Except.map]

/-- C4 (witness): a profiles directory with two user directories, one stray
file and an `AppData` tree under the profiles directory itself yields the
one profiles-relative path replicated once per subdirectory (including
`AppData`, which is itself a directory). -/
theorem C4_usrclass_profiles_witness :
    expandUsers fsC4 "usrclass.dat" ["c", "Users"] =
      .ok (List.replicate 3
        ["c", "Users", "AppData", "Local", "Microsoft", "Windows", "UsrClass.dat"]) :=
  C4_usrclass_profiles.1 fsC4 ["c", "Users"]
    ["alice", "desktop.ini", "bob", "AppData"] _ rfl rfl

/-- C5 (counterexample): with `c/windows` a file, the intermediate directory
`c/windows` cannot be listed, and multi-segment resolution raises an OS
error instead of returning "not found". -/
theorem C5_counterexample :
    find_path_nocase fsC5 ["c"] ["windows", "x"] = .error Err.osError ∧
    find_path_nocase fsC5 ["c"] ["windows", "x"] ≠ .ok none :=
  ⟨rfl, fun hc => Except.noConfusion hc⟩

/-- C5 (amended): multi-segment resolution returns "not found" only when a
segment has no case-insensitive match among an existing directory's entries;
a non-existent intermediate directory, or a file where a directory is
expected, makes the underlying directory listing raise, and the OS error
propagates out of the resolution instead of becoming "not found". -/
theorem C5_intermediate :
    (∀ (fs : FS) (root : Path) (part : String) (rest : List String),
        lookupFS root fs = none →
        find_path_nocase fs root (part :: rest) = .error Err.osError) ∧
    (∀ (fs : FS) (root : Path) (part : String) (rest : List String),
        lookupFS root fs = some FS.file →
        find_path_nocase fs root (part :: rest) = .error Err.osError) ∧
    (∀ (fs : FS) (root : Path) (part : String) (rest : List String)
        (es : List (String × FS)),
        lookupFS root fs = some (FS.dir es) →
        (∀ f ∈ es.map Prod.fst, pyLower f ≠ pyLower part) →
        find_path_nocase fs root (part :: rest) = .ok none) := by
  refine ⟨?_, ?_, ?_⟩
  · intro fs root part rest h
    simp [find_path_nocase, find_path_nocase_go, find_file_nocase, listdir, h]
  · intro fs root part rest h
    simp [find_path_nocase, find_path_nocase_go, find_file_nocase, listdir, h]
  · intro fs root part rest es h hnone
    have hf : (es.map Prod.fst).find? (fun f => pyLower f == pyLower part) = none := by
      rw [List.find?_eq_none]
      intro x hx
      simpa using hnone x hx
    simp [find_path_nocase, find_path_nocase_go, find_file_nocase, listdir, h, hf]

/-- C5 (witness): a missing starting directory raises. -/
theorem C5_intermediate_witness :
    find_path_nocase fs0 ["nothere"] ["x"] = .error Err.osError :=
  C5_intermediate.1 fs0 ["nothere"] "x" [] rfl

/-- C7: single-segment case-insensitive lookup returns an actual on-disk
entry name whose lowercase form equals the desired name's lowercase form
(preserving the on-disk casing), returns "not found" exactly when no entry
matches, and in particular resolving `software` in a directory holding
`SOFTWARE` returns `SOFTWARE`. -/
theorem C7_nocase_lookup :
    (∀ (fs : FS) (root : Path) (name : String) (es : List (String × FS)),
        lookupFS root fs = some (FS.dir es) →
        (∀ f, find_file_nocase fs root name = .ok (some f) →
            f ∈ es.map Prod.fst ∧ pyLower f = pyLower name) ∧
        (find_file_nocase fs root name = .ok none →
            ∀ f ∈ es.map Prod.fst, pyLower f ≠ pyLower name)) ∧
    find_file_nocase fsSoft [] "software" = .ok (some "SOFTWARE") := by
  refine ⟨?_, rfl⟩
  intro fs root name es h
  have hl : listdir fs root = .ok (es.map Prod.fst) := by simp [listdir, h]
  constructor
  · intro f hf
    rw [find_file_nocase, hl] at hf
    have hfind : (es.map Prod.fst).find? (fun g => pyLower g == pyLower name) =
        some f := by
      simpa using hf
    exact ⟨List.mem_of_find?_eq_some hfind,
      by simpa using List.find?_some hfind⟩
  · intro hf f hmem hEq
    rw [find_file_nocase, hl] at hf
    have hfind : (es.map Prod.fst).find? (fun g => pyLower g == pyLower name) =
        none := by
      simpa using hf
    have := List.find?_eq_none.mp hfind f hmem
    simp [hEq] at this

/-- C7 (witness): the on-disk casing `SOFTWARE` is what lookup reports for
the desired name `software`. -/
theorem C7_nocase_lookup_witness :
    "SOFTWARE" ∈ ([("SOFTWARE", FS.file)].map Prod.fst) ∧
    pyLower "SOFTWARE" = pyLower "software" :=
  ((C7_nocase_lookup.1 fsSoft [] "software" [("SOFTWARE", FS.file)] rfl).1
    "SOFTWARE" rfl)

/-- C8: in expand-all mode the profiles directory is located by trying
`users` first and `Documents And Settings` second, both case-insensitively
under the root (the second is not consulted when the first succeeds), and
when neither exists resolution raises the `RuntimeError` instead of
returning an empty result. -/
theorem C8_users_folder :
    ∀ (fs : FS) (env : Env) (args : Args) (name : String),
      (pyLower name = "ntuser.dat" ∨ pyLower name = "usrclass.dat") →
      args.all_user_hives = true → args.root ≠ [] →
      (∀ uf, find_path_nocase fs args.root ["users"] = .ok (some uf) →
          get_hive_paths fs env args name =
            Except.map some (expandUsers fs (pyLower name) uf)) ∧
      (∀ uf, find_path_nocase fs args.root ["users"] = .ok none →
          find_path_nocase fs args.root ["Documents And Settings"] =
            .ok (some uf) →
          get_hive_paths fs env args name =
            Except.map some (expandUsers fs (pyLower name) uf)) ∧
      (find_path_nocase fs args.root ["users"] = .ok none →
       find_path_nocase fs args.root ["Documents And Settings"] = .ok none →
       get_hive_paths fs env args name =
         .error (Err.runtimeError "Could not find the Users folder")) := by
  intro fs env args name hn hflag hroot
  refine ⟨?_, ?_, ?_⟩
  · intro uf hu
    rw [ghp_expand fs env args name hn hflag hroot, hu]
    rcases hE : expandUsers fs (pyLower name) uf with e | l <;>
      simp [hE, Except.map]
  · intro uf hu hd
    rw [ghp_expand fs env args name hn hflag hroot, hu, hd]
    rcases hE : expandUsers fs (pyLower name) uf with e | l <;>
      simp [hE, Except.map]
  · intro hu hd
    rw [ghp_expand fs env args name hn hflag hroot, hu, hd]

/-- C8 (witness): a root with neither profiles directory makes resolution
raise the `RuntimeError`. -/
theorem C8_users_folder_witness :
    get_hive_paths fsC8 env0 argsAll "ntuser.dat" =
      .error (Err.runtimeError "Could not find the Users folder") :=
  (C8_users_folder fsC8 env0 argsAll "ntuser.dat" (Or.inl rfl) rfl
    (by decide)).2.2 rfl rfl

/-- Each processed path opens stdin exactly when it is the `"-"` sentinel. -/
theorem count_processPath (run : String → Path → List Nat) (h : String)
    (p : Path) :
    (processPath run h p).count Event.openStdin = if p = ["-"] then 1 else 0 := by
  unfold processPath
  split_ifs with h1 h2 h3 <;>
    simp_all [List.count_append, List.count_cons, List.count_eq_zero,
      List.mem_map]

/-- Across the inner loop over one hive's resolved paths, stdin is opened
once per `"-"` element. -/
theorem count_flatten_stdin (run : String → Path → List Nat) (h : String) :
    ∀ l : List Path,
      ((l.map (processPath run h)).flatten).count Event.openStdin =
        l.count ["-"] := by
  intro l
  induction l with
  | nil => rfl
  | cons p rest ih =>
    by_cases hp : p = ["-"]
    · simp [hp, List.count_append, List.count_cons, count_processPath, ih]
      omega
    · simp [hp, List.count_append, List.count_cons, count_processPath, ih]

/-- C6 (counterexample): nothing rejects the stdin sentinel — a plugin
declaring both per-user hives with both overrides set to `"-"` opens stdin
twice in a single invocation. -/
theorem C6_counterexample :
    mainLoop run0 fs0 env0 argsC6 ["NTUSER.DAT", "USRCLASS.DAT"] =
      .ok [Event.openStdin, Event.openStdin] ∧
    [Event.openStdin, Event.openStdin].count Event.openStdin = 2 :=
  ⟨rfl, rfl⟩

/-- C6 (amended): the dispatcher performs no rejection of the `"-"`
sentinel; whenever the dispatch loop completes normally, stdin has been
opened exactly once per occurrence of `"-"` among the truthy resolved path
lists — so an invocation whose resolved paths contain `"-"` twice opens
stdin twice. -/
theorem C6_stdin_per_dash :
    ∀ (run : String → Path → List Nat) (fs : FS) (env : Env) (args : Args)
      (names : List String) (evs : List Event),
      mainLoop run fs env args names = .ok evs →
      evs.count Event.openStdin = dashCount fs env args names := by
  intro run fs env args names
  induction names with
  | nil =>
    intro evs hm
    simp [mainLoop] at hm
    subst hm
    rfl
  | cons h rest ih =>
    intro evs hm
    rcases hP : processHive run fs env args h with e | e1 <;>
      rcases hM : mainLoop run fs env args rest with e2 | e2 <;>
      simp [mainLoop, hP, hM] at hm
    subst hm
    rw [List.count_append, ih e2 hM]
    have hhead : e1.count Event.openStdin =
        (match get_hive_paths fs env args h with
         | .ok hp => if pathsTruthy hp then (hp.getD []).count ["-"] else 0
         | .error _ => 0) := by
      rcases hg : get_hive_paths fs env args h with e3 | hp <;>
        simp [processHive, hg] at hP
      by_cases ht : pathsTruthy hp <;> simp [ht] at hP <;>
        simp [hg, ht, ← hP, count_flatten_stdin, List.count_cons]
    rw [hhead]
    rfl

/-- C6 (witness): the double-stdin run has a dash count of 2. -/
theorem C6_stdin_per_dash_witness :
    [Event.openStdin, Event.openStdin].count Event.openStdin =
      dashCount fs0 env0 argsC6 ["NTUSER.DAT", "USRCLASS.DAT"] :=
  C6_stdin_per_dash run0 fs0 env0 argsC6 ["NTUSER.DAT", "USRCLASS.DAT"]
    [Event.openStdin, Event.openStdin] rfl

/-- C9: when resolution of one declared hive yields a falsy result, the
dispatch loop emits exactly the one-line diagnostic for that hive and then
behaves on the remaining declared hives exactly as it would have without
the missed one — a resolution miss is non-fatal and does not affect the
other hives. -/
theorem C9_miss_nonfatal :
    ∀ (run : String → Path → List Nat) (fs : FS) (env : Env) (args : Args)
      (h : String) (rest : List String) (hp : Option (List Path)),
      get_hive_paths fs env args h = .ok hp → pathsTruthy hp = false →
      mainLoop run fs env args (h :: rest) =
        Except.map (fun evs => Event.diagMissing h :: evs)
          (mainLoop run fs env args rest) := by
  intro run fs env args h rest hp hg ht
  have hP : processHive run fs env args h = .ok [Event.diagMissing h] := by
    simp [processHive, hg, ht]
  rcases hM : mainLoop run fs env args rest with e | e2 <;>
    simp [mainLoop, hP, hM, Except.map]

/-- C9 (witness): a missed SAM hive leaves the processing of a subsequent
SYSTEM hive untouched. -/
theorem C9_miss_nonfatal_witness :
    mainLoop run0 fs0 env0 args0 ["SAM", "SYSTEM"] =
      Except.map (fun evs => Event.diagMissing "SAM" :: evs)
        (mainLoop run0 fs0 env0 args0 ["SYSTEM"]) :=
  C9_miss_nonfatal run0 fs0 env0 args0 "SAM" ["SYSTEM"] none rfl rfl

/-- C10: hive-name matching during resolution is case-insensitive (any
casing of `ntuser.dat` resolves exactly like `NTUSER.DAT`), but the `User:`
informational line is gated on the declared name being exactly the
uppercase string `NTUSER.DAT`: for any other casing no `User:` line is ever
emitted, while the exact casing emits it for non-empty results from a real
(non-stdin) path. -/
theorem C10_user_line_gate :
    (∀ (fs : FS) (env : Env) (args : Args) (name : String),
        pyLower name = "ntuser.dat" →
        get_hive_paths fs env args name =
          get_hive_paths fs env args "NTUSER.DAT") ∧
    (∀ (run : String → Path → List Nat) (name : String) (p : Path),
        name ≠ "NTUSER.DAT" →
        ∀ hn q, Event.userInfo hn q ∉ processPath run name p) ∧
    (∀ (run : String → Path → List Nat) (p : Path),
        p ≠ ["-"] → run "NTUSER.DAT" p ≠ [] →
        Event.userInfo "NTUSER.DAT" p ∈ processPath run "NTUSER.DAT" p) := by
  refine ⟨?_, ?_, ?_⟩
  · intro fs env args name h
    show get_hive_paths_rec fs env args 2 name =
      get_hive_paths_rec fs env args 2 "NTUSER.DAT"
    conv_lhs => rw [show (2 : Nat) = 1 + 1 from rfl, get_hive_paths_rec.eq_2]
    conv_rhs => rw [show (2 : Nat) = 1 + 1 from rfl, get_hive_paths_rec.eq_2]
    rw [h, pyLower_NT]
  · intro run name p hne hn q hmem
    by_cases hp : p = ["-"] <;> by_cases hr : (run name p).isEmpty <;>
      simp [processPath, hp, hr, hne] at hmem
  · intro run p hp hr
    have hie : (run "NTUSER.DAT" p).isEmpty = false := by
      simpa [List.isEmpty_iff] using hr
    simp [processPath, hp, hie]

/-- C10 (witness): the lowercase declaration resolves identically but never
emits the `User:` line; the uppercase declaration emits it. -/
theorem C10_user_line_gate_witness :
    (get_hive_paths fs0 env0 args0 "ntuser.dat" =
      get_hive_paths fs0 env0 args0 "NTUSER.DAT") ∧
    Event.userInfo "x" ["q"] ∉ processPath run1 "ntuser.dat" ["q"] ∧
    Event.userInfo "NTUSER.DAT" ["q"] ∈ processPath run1 "NTUSER.DAT" ["q"] :=
  ⟨C10_user_line_gate.1 fs0 env0 args0 "ntuser.dat" rfl,
   C10_user_line_gate.2.1 run1 "ntuser.dat" ["q"] (by decide) "x" ["q"],
   C10_user_line_gate.2.2 run1 ["q"] (by decide) (by decide)⟩

end Regrip

